import Mathlib

/-!
Verification of the SSH/SFTP remote-session gateway of the
Win11-React-Gemini-Clone repository.

The development shallowly embeds the three gateway variants found in the
source tree:

* `WsSftp`   — the SFTP operation bridge of `src/main/ws-sftp.js`;
* `Terminus` — the interactive-shell bridge of `src/main.js` (wss handler);
* `AutoSync` — the SFTP bridge with the auto-sync watcher of
  `src/unnamed/part_014`.

Each inbound client message is modelled as an already-parsed value
(`Option`-wrapped: `none` stands for a message that is not valid JSON), the
connection registry (`Map<connectionId, connDetails>`) as an association
list, and the remote server as an oracle record supplying the result of
each SFTP subsystem call.  Handlers return the successor state together
with the messages sent back over the client channel, the actions performed
on secure-shell handles, and the SFTP subsystem requests issued — so that
"no message was sent" and "the remote was not contacted" are directly
inspectable.
-/

/-! ### JavaScript `Map` as an association list (insertion order preserved) -/

def mapGet {α : Type} (m : List (String × α)) (k : String) : Option α :=
  match m with
  | [] => none
  | (k', v) :: rest => if k' = k then some v else mapGet rest k

def mapSet {α : Type} (m : List (String × α)) (k : String) (v : α) :
    List (String × α) :=
  match m with
  | [] => [(k, v)]
  | (k', v') :: rest =>
      if k' = k then (k, v) :: rest else (k', v') :: mapSet rest k v

def mapDelete {α : Type} (m : List (String × α)) (k : String) :
    List (String × α) :=
  match m with
  | [] => []
  | (k', v) :: rest =>
      if k' = k then mapDelete rest k else (k', v) :: mapDelete rest k

def mapUpdate {α : Type} (m : List (String × α)) (k : String) (f : α → α) :
    List (String × α) :=
  match m with
  | [] => []
  | (k', v) :: rest =>
      if k' = k then (k', f v) :: rest else (k', v) :: mapUpdate rest k f

/-! ### JavaScript numeric parsing: `parseInt(s, 10)` -/

def jsIsSpace (c : Char) : Bool :=
  c = ' ' || c = '\t' || c = '\n' || c = '\r'

def digitsToNat (ds : List Char) : Nat :=
  ds.foldl (fun acc c => acc * 10 + (c.toNat - '0'.toNat)) 0

/-- JS `parseInt(s, 10)`: skip leading whitespace, optional sign, then leading
decimal digits; `none` models `NaN` (no digits found). -/
def jsParseInt (s : String) : Option Int :=
  let cs := s.data.dropWhile jsIsSpace
  let signed : Int × List Char :=
    match cs with
    | '-' :: rest => (-1, rest)
    | '+' :: rest => (1, rest)
    | _ => (1, cs)
  let digits := signed.2.takeWhile (fun c => c.isDigit)
  if digits.isEmpty then none
  else some (signed.1 * (digitsToNat digits : Int))

/-- The connect-port expression of both SFTP bridges:
`parseInt(port, 10) || 22` (a `NaN` or `0` result falls back to `22`). -/
def portOrDefault (port : Option String) : Int :=
  match port.bind jsParseInt with
  | none => 22
  | some n => if n = 0 then 22 else n

/-! ### Node `path.posix` (join / normalize / basename / dirname),
implemented over `List Char` so that every call reduces in the kernel -/

def splitOnSlash : List Char → List (List Char)
  | [] => [[]]
  | c :: rest =>
      let r := splitOnSlash rest
      if c = '/' then [] :: r
      else
        match r with
        | [] => [[c]]
        | seg :: segs => (c :: seg) :: segs

def joinWithSlash : List (List Char) → List Char
  | [] => []
  | [s] => s
  | s :: rest => s ++ '/' :: joinWithSlash rest

def normalizeSegments (allowAboveRoot : Bool) (acc : List (List Char)) :
    List (List Char) → List (List Char)
  | [] => acc.reverse
  | seg :: rest =>
      if seg = ([] : List Char) || seg = ['.'] then
        normalizeSegments allowAboveRoot acc rest
      else if seg = ['.', '.'] then
        match acc with
        | top :: tail =>
            if top = ['.', '.'] then
              normalizeSegments allowAboveRoot (['.', '.'] :: top :: tail) rest
            else
              normalizeSegments allowAboveRoot tail rest
        | [] =>
            if allowAboveRoot then
              normalizeSegments allowAboveRoot [['.', '.']] rest
            else
              normalizeSegments allowAboveRoot [] rest
      else normalizeSegments allowAboveRoot (seg :: acc) rest

def headIsSlash (l : List Char) : Bool :=
  match l with
  | '/' :: _ => true
  | _ => false

def lastIsSlash (l : List Char) : Bool :=
  headIsSlash l.reverse

/-- Node `path.posix.normalize`. -/
def posixNormalize (p : String) : String :=
  match p.data with
  | [] => "."
  | c :: cs =>
      let chars := c :: cs
      let isAbs : Bool := c = '/'
      let trailingSep := lastIsSlash chars
      let core := joinWithSlash (normalizeSegments (!isAbs) [] (splitOnSlash chars))
      if core.isEmpty then
        if isAbs then "/" else if trailingSep then "./" else "."
      else
        let core := if trailingSep then core ++ ['/'] else core
        if isAbs then String.mk ('/' :: core) else String.mk core

/-- Node `path.posix.join(a, b)`: concatenate the non-empty arguments with `/`
and normalize; all-empty input yields `"."`. -/
def posixJoin (a b : String) : String :=
  match a.data, b.data with
  | [], [] => "."
  | [], bs => posixNormalize (String.mk bs)
  | as, [] => posixNormalize (String.mk as)
  | as, bs => posixNormalize (String.mk (as ++ '/' :: bs))

/-- Node `path.posix.basename(p)` (no extension argument). -/
def posixBasename (p : String) : String :=
  let r := p.data.reverse.dropWhile (fun c => c = '/')
  String.mk ((r.takeWhile (fun c => !(c = '/' : Bool))).reverse)

/-- Node `path.posix.dirname(p)`, mirroring Node's backward scan over indices
`len-1 .. 1` (index 0 is never examined by the loop). -/
def posixDirname (p : String) : String :=
  let cs := p.data
  let hasRoot := headIsSlash cs
  let rtail := (cs.drop 1).reverse
  let afterSlashes := rtail.dropWhile (fun c => c = '/')
  let afterBase := afterSlashes.dropWhile (fun c => !(c = '/' : Bool))
  match afterBase with
  | [] => if hasRoot then "/" else "."
  | _ :: rest =>
      if hasRoot && rest.isEmpty then "//"
      else String.mk (cs.take 1 ++ rest.reverse)

/-! ### Wire-level values shared by all gateway variants -/

/-- A JSON leaf value appearing in a `list` response item. -/
inductive JVal
  | s (v : String)
  | n (v : Int)
deriving DecidableEq, Repr

/-- A buffer value `Buffer.from(source, encoding)`, kept symbolic: the pair of the raw
string and the encoding tag passed to the decoder. -/
structure JsBuffer where
  source : String
  encoding : String
deriving DecidableEq, Repr

/-- One entry of an `sftp.readdir` result (the fields the bridges read). -/
structure RemoteEntry where
  filename : String
  longname : String
  size : Nat
  mtime : Nat
deriving DecidableEq, Repr

/-- The `item` object sent by the client for delete/rename requests. -/
structure Item where
  name : String
  path : String
  type : String
deriving DecidableEq, Repr

/-- Messages the gateway sends back over the client-facing channel
(the argument lists mirror the serialized JSON payload shapes; a field of
type `Option` is omitted from the JSON when `none`). -/
inductive OutMsg
  | error (payload : String)
  | status (payload : String)
  | listResp (path : String) (items : List (List (String × JVal)))
  | listRespRoot (path : String) (items : List (List (String × JVal)))
      (isRoot : Option Bool)
  | fileContent (path : String) (content : String)
  | opSuccess (message : String) (dirToRefresh : String) (isLocal : Option Bool)
  | downloadComplete (localPath : String) (remotePath : String)
  | uploadStatus (status : String) (remotePath : String) (err : Option String)
deriving DecidableEq, Repr

/-- Actions performed on `ssh2.Client` handles (handles are numbered). -/
inductive SshAction
  | connect (host : Option String) (port : Int) (username : Option String)
      (readyTimeout : Nat) (handle : Nat)
  | endConn (handle : Nat)
deriving DecidableEq, Repr

/-- SFTP subsystem calls issued against the remote server. -/
inductive SftpRequest
  | readdir (path : String)
  | readStream (path : String)
  | writeStream (path : String) (data : Option JsBuffer)
  | fastGet (remotePath : String) (localPath : String)
  | fastPut (localPath : String) (remotePath : String)
  | renameOp (src : String) (dst : String)
  | mkdir (path : String)
  | rmdir (path : String)
  | unlink (path : String)
deriving DecidableEq, Repr

/-- Oracle for the remote server: the result each SFTP subsystem call
would produce (`Except`/`Option` carry the `err.message` on failure). -/
structure RemoteFs where
  readdirRes : String → Except String (List RemoteEntry)
  readFileRes : String → Except String String
  writeRes : String → Option String
  fastGetRes : String → String → Option String
  fastPutRes : String → String → Option String
  renameRes : String → String → Option String
  mkdirRes : String → Option String
  rmdirRes : String → Option String
  unlinkRes : String → Option String

/-- An oracle on which every operation succeeds (directories list empty). -/
def fsStub : RemoteFs where
  readdirRes := fun _ => .ok []
  readFileRes := fun _ => .ok ""
  writeRes := fun _ => none
  fastGetRes := fun _ _ => none
  fastPutRes := fun _ _ => none
  renameRes := fun _ _ => none
  mkdirRes := fun _ => none
  rmdirRes := fun _ => none
  unlinkRes := fun _ => none

/-- Parsed inbound client messages of the `ws-sftp.js` and `main.js`
protocols (`type` strings: connect, list, get_content, upload, download,
move, create_folder, create_file, delete, rename, data, resize,
disconnect; `other` stands for any further `type` string, which no
dispatch branch matches). -/
inductive ClientMsg
  | connect (host : Option String) (port : Option String)
      (username : Option String) (password : Option String)
  | list (path : String)
  | getContent (path : String)
  | upload (remoteDir : String) (fileName : String) (fileData : String)
      (encoding : Option String)
  | download (remotePath : String) (localDir : String) (fileName : String)
  | move (sourcePath : String) (destPath : String)
  | createFolder (parentDir : String) (name : String)
  | createFile (parentDir : String) (name : String)
  | delete (item : Item)
  | rename (item : Item) (newName : String)
  | data (payload : String)
  | resize (rows : Int) (cols : Int)
  | disconnect
  | other (type : String)
deriving DecidableEq, Repr

namespace WsSftp

/-- A registry entry: `{ ws, ssh: conn }`, later extended with `sftp`. -/
structure ConnDetails where
  ssh : Nat
  sftp : Option Nat
deriving DecidableEq, Repr

/-- The module state of `startSftpServer` in `src/main/ws-sftp.js`:
the `sftpConnections` map, plus a counter supplying fresh handle numbers
for `new Client()` objects. -/
structure GatewayState where
  sftpConnections : List (String × ConnDetails)
  nextHandle : Nat
deriving DecidableEq, Repr

/-- Everything one `ws.on("message")` invocation produces: the successor
state, the messages sent to the client (including those sent by the
completion callbacks of the SFTP calls the invocation issued), the actions
on secure-shell handles, and the SFTP subsystem requests issued. -/
structure StepResult where
  state : GatewayState
  outputs : List OutMsg
  sshActions : List SshAction
  sftpRequests : List SftpRequest
deriving DecidableEq, Repr

/-- The `handleSftpError` message shape of `ws-sftp.js`:
`Failed to ${operation} ${path.posix.basename(target)}: ${err.message}`. -/
def sftpErrorMsg (operation : String) (target : String) (errMsg : String) :
    OutMsg :=
  .error ("Failed to " ++ operation ++ " " ++ posixBasename target ++ ": " ++ errMsg)

/-- One item of a `list` response, with the object keys in source order. -/
def listItem (reqPath : String) (e : RemoteEntry) : List (String × JVal) :=
  [("name", .s e.filename),
   ("path", .s (posixJoin reqPath e.filename)),
   ("type", .s (if e.longname.data.take 1 = ['d'] then "folder" else "file")),
   ("size", .n (Int.ofNat e.size)),
   ("modified", .n (Int.ofNat e.mtime))]

def listItems (reqPath : String) (l : List RemoteEntry) :
    List (List (String × JVal)) :=
  l.map (listItem reqPath)

/-- The filesystem root of the host-side `resolvePath` (the `FS_ROOT =
__dirname` of the gateway process; the concrete value is
deployment-dependent and irrelevant to the proved properties). -/
def FS_ROOT : String := "/gateway"

/-- Host-side `path.join`; the gateway host is modelled as POSIX. -/
def hostJoin (a b : String) : String := posixJoin a b

/-- Function `resolvePath` of `src/main.js` (also required by `ws-sftp.js` from the
`./utils` module, which is not in the tree; the `main.js` copy is used):
join below `FS_ROOT` and throw when the result escapes the root. -/
def resolvePath (relativePath : String) : Except String String :=
  let fullPath := hostJoin FS_ROOT relativePath
  if fullPath.data.take FS_ROOT.data.length = FS_ROOT.data then .ok fullPath
  else .error "Access denied: Path is outside of the allowed root directory."

/-- The `ws.on("message")` handler of `src/main/ws-sftp.js`.  `none`
models a message that `JSON.parse` rejects (the catch block answers with
a generic error).  Operations other than `connect`/`disconnect` require
`connDetails?.sftp` to be present; otherwise no dispatch branch matches
and the message is dropped. -/
def handleMessage (st : GatewayState) (connectionId : String)
    (msg : Option ClientMsg) (fs : RemoteFs) : StepResult :=
  match msg with
  | none => ⟨st, [.error "Invalid message format received."], [], []⟩
  | some m =>
    let connDetails := mapGet st.sftpConnections connectionId
    let sftp := connDetails.bind (fun d => d.sftp)
    match m with
    | .connect host port username _password =>
        let handle := st.nextHandle
        ⟨⟨mapSet st.sftpConnections connectionId ⟨handle, none⟩, st.nextHandle + 1⟩,
         [], [.connect host (portOrDefault port) username 20000 handle], []⟩
    | .list reqPath =>
        match sftp with
        | none => ⟨st, [], [], []⟩
        | some _ =>
            match fs.readdirRes reqPath with
            | .error e => ⟨st, [sftpErrorMsg "list" reqPath e], [], [.readdir reqPath]⟩
            | .ok l =>
                ⟨st, [.listResp reqPath (listItems reqPath l)], [], [.readdir reqPath]⟩
    | .getContent reqPath =>
        match sftp with
        | none => ⟨st, [], [], []⟩
        | some _ =>
            match fs.readFileRes reqPath with
            | .error e =>
                ⟨st, [sftpErrorMsg "get content for" reqPath e], [], [.readStream reqPath]⟩
            | .ok content =>
                ⟨st, [.fileContent reqPath content], [], [.readStream reqPath]⟩
    | .upload remoteDir fileName fileData encoding =>
        match sftp with
        | none => ⟨st, [], [], []⟩
        | some _ =>
            let remotePath := posixJoin remoteDir fileName
            let buffer : JsBuffer := ⟨fileData, encoding.getD "base64"⟩
            let req := SftpRequest.writeStream remotePath (some buffer)
            match fs.writeRes remotePath with
            | some e => ⟨st, [sftpErrorMsg "upload" remotePath e], [], [req]⟩
            | none =>
                ⟨st, [.opSuccess ("Uploaded " ++ fileName) remoteDir (some false)], [], [req]⟩
    | .download remotePath localDir fileName =>
        match sftp with
        | none => ⟨st, [], [], []⟩
        | some _ =>
            match resolvePath (hostJoin localDir fileName) with
            | .error _ => ⟨st, [.error "Invalid message format received."], [], []⟩
            | .ok localDestPath =>
                match fs.fastGetRes remotePath localDestPath with
                | some e =>
                    ⟨st, [sftpErrorMsg "download" remotePath e], [],
                     [.fastGet remotePath localDestPath]⟩
                | none =>
                    ⟨st, [.opSuccess ("Downloaded " ++ fileName) localDir (some true)], [],
                     [.fastGet remotePath localDestPath]⟩
    | .move sourcePath destPath =>
        match sftp with
        | none => ⟨st, [], [], []⟩
        | some _ =>
            match fs.renameRes sourcePath destPath with
            | some e =>
                ⟨st, [sftpErrorMsg "move" sourcePath e], [], [.renameOp sourcePath destPath]⟩
            | none =>
                ⟨st, [.opSuccess ("Moved " ++ posixBasename sourcePath)
                        (posixDirname destPath) (some false)], [],
                 [.renameOp sourcePath destPath]⟩
    | .createFolder parentDir name =>
        match sftp with
        | none => ⟨st, [], [], []⟩
        | some _ =>
            let newPath := posixJoin parentDir name
            match fs.mkdirRes newPath with
            | some e => ⟨st, [sftpErrorMsg "create folder" newPath e], [], [.mkdir newPath]⟩
            | none =>
                ⟨st, [.opSuccess ("Created folder " ++ name) parentDir (some false)], [],
                 [.mkdir newPath]⟩
    | .createFile parentDir name =>
        match sftp with
        | none => ⟨st, [], [], []⟩
        | some _ =>
            let newPath := posixJoin parentDir name
            let req := SftpRequest.writeStream newPath none
            match fs.writeRes newPath with
            | some e => ⟨st, [sftpErrorMsg "create file" newPath e], [], [req]⟩
            | none =>
                ⟨st, [.opSuccess ("Created file " ++ name) parentDir (some false)], [], [req]⟩
    | .delete item =>
        match sftp with
        | none => ⟨st, [], [], []⟩
        | some _ =>
            let req := if item.type = "folder" then SftpRequest.rmdir item.path
                       else SftpRequest.unlink item.path
            let res := if item.type = "folder" then fs.rmdirRes item.path
                       else fs.unlinkRes item.path
            match res with
            | some e => ⟨st, [sftpErrorMsg "delete" item.path e], [], [req]⟩
            | none =>
                ⟨st, [.opSuccess ("Deleted " ++ item.name)
                        (posixDirname item.path) (some false)], [], [req]⟩
    | .rename item newName =>
        match sftp with
        | none => ⟨st, [], [], []⟩
        | some _ =>
            let newPath := posixJoin (posixDirname item.path) newName
            match fs.renameRes item.path newPath with
            | some e =>
                ⟨st, [sftpErrorMsg "rename" item.path e], [], [.renameOp item.path newPath]⟩
            | none =>
                ⟨st, [.opSuccess ("Renamed " ++ item.name ++ " to " ++ newName)
                        (posixDirname item.path) (some false)], [],
                 [.renameOp item.path newPath]⟩
    | .disconnect =>
        match connDetails with
        | some d => ⟨st, [], [.endConn d.ssh], []⟩
        | none => ⟨st, [], [], []⟩
    | .data _ => ⟨st, [], [], []⟩
    | .resize _ _ => ⟨st, [], [], []⟩
    | .other _ => ⟨st, [], [], []⟩

/-- The `conn.sftp` completion inside `conn.on("ready")`: on success the
registry entry gains the subsystem handle and `status: connected` is sent;
on error only `SFTP Error: …` is sent. -/
def handleSshReady (st : GatewayState) (connectionId : String)
    (sftpResult : Except String Nat) : GatewayState × List OutMsg :=
  match sftpResult with
  | .error e => (st, [.error ("SFTP Error: " ++ e)])
  | .ok h =>
      (⟨mapUpdate st.sftpConnections connectionId (fun d => { d with sftp := some h }),
        st.nextHandle⟩,
       [.status "connected"])

/-- The `conn.on("error")` handler: send `Connection Error: …` and purge
the registry entry. -/
def handleSshError (st : GatewayState) (connectionId : String) (e : String) :
    GatewayState × List OutMsg :=
  (⟨mapDelete st.sftpConnections connectionId, st.nextHandle⟩,
   [.error ("Connection Error: " ++ e)])

/-- The `conn.on("close")` handler: send `status: disconnected` and purge
the registry entry. -/
def handleSshClose (st : GatewayState) (connectionId : String) :
    GatewayState × List OutMsg :=
  (⟨mapDelete st.sftpConnections connectionId, st.nextHandle⟩,
   [.status "disconnected"])

/-- The `ws.on("close")` handler: end the session's secure-shell
connection (when one exists) and purge the registry entry. -/
def handleWsClose (st : GatewayState) (connectionId : String) :
    GatewayState × List SshAction :=
  let acts := match mapGet st.sftpConnections connectionId with
    | some d => [SshAction.endConn d.ssh]
    | none => []
  (⟨mapDelete st.sftpConnections connectionId, st.nextHandle⟩, acts)

/-- The nine operation requests of the dispatch table (everything except
`connect` and `disconnect`). -/
def isSftpOp : ClientMsg → Bool
  | .list _ => true
  | .getContent _ => true
  | .upload _ _ _ _ => true
  | .download _ _ _ => true
  | .move _ _ => true
  | .createFolder _ _ => true
  | .createFile _ _ => true
  | .delete _ => true
  | .rename _ _ => true
  | _ => false

/-- The session's SFTP subsystem handle is not ready: the registry has no
entry for the id, or the entry has no `sftp` field yet. -/
def sftpUnready (st : GatewayState) (connectionId : String) : Bool :=
  ((mapGet st.sftpConnections connectionId).bind (fun d => d.sftp)).isNone

end WsSftp

namespace Terminus

/-- A registry entry of the Terminus bridge: `{ ws, ssh: conn }`, later
extended with the shell `stream`. -/
structure ConnDetails where
  ssh : Nat
  stream : Option Nat
deriving DecidableEq, Repr

/-- The module state of the Terminus wss handler in `src/main.js`: the
`sshConnections` map plus a fresh-handle counter. -/
structure GatewayState where
  sshConnections : List (String × ConnDetails)
  nextHandle : Nat
deriving DecidableEq, Repr

/-- Actions on secure-shell handles and the interactive-shell stream. -/
inductive TermAction
  | connect (host : Option String) (port : Int) (username : Option String)
      (readyTimeout : Nat) (handle : Nat)
  | write (stream : Nat) (payload : String)
  | setWindow (stream : Nat) (rows : Int) (cols : Int)
  | endConn (handle : Nat)
deriving DecidableEq, Repr

/-- The `ws.on("message")` handler of the Terminus bridge.  The `connect`
branch destructures only `host`, `username`, `password` from the payload
and always connects with `port: 22`; malformed JSON (`none`) is only
logged. -/
def handleMessage (st : GatewayState) (connectionId : String)
    (msg : Option ClientMsg) : GatewayState × List OutMsg × List TermAction :=
  match msg with
  | none => (st, [], [])
  | some m =>
    match m with
    | .connect host _port username _password =>
        let handle := st.nextHandle
        (⟨mapSet st.sshConnections connectionId ⟨handle, none⟩, st.nextHandle + 1⟩,
         [], [.connect host 22 username 20000 handle])
    | .data payload =>
        match mapGet st.sshConnections connectionId with
        | some ⟨_, some s⟩ => (st, [], [.write s payload])
        | _ => (st, [], [])
    | .resize rows cols =>
        match mapGet st.sshConnections connectionId with
        | some ⟨_, some s⟩ => (st, [], [.setWindow s rows cols])
        | _ => (st, [], [])
    | .disconnect =>
        match mapGet st.sshConnections connectionId with
        | some d => (st, [], [.endConn d.ssh])
        | none => (st, [], [])
    | _ => (st, [], [])

/-- The `conn.on("error")` handler of the Terminus bridge. -/
def handleSshError (st : GatewayState) (connectionId : String) (e : String) :
    GatewayState × List OutMsg :=
  (⟨mapDelete st.sshConnections connectionId, st.nextHandle⟩,
   [.error ("Connection Error: " ++ e)])

/-- The `conn.on("close")` handler of the Terminus bridge. -/
def handleSshClose (st : GatewayState) (connectionId : String) :
    GatewayState × List OutMsg :=
  (⟨mapDelete st.sshConnections connectionId, st.nextHandle⟩,
   [.status "disconnected"])

end Terminus

namespace AutoSync

/-- Parsed inbound messages of the `src/unnamed/part_014` protocol
(`type` strings: connect, list, download_and_track, upload, create_folder,
create_file, delete_item, rename_item, disconnect). -/
inductive Msg
  | connect (host : Option String) (port : Option String)
      (username : Option String) (password : Option String)
  | list (path : String) (isRoot : Option Bool)
  | downloadAndTrack (remotePath : String)
  | upload (remoteDir : String) (fileName : String) (fileData : String)
      (encoding : Option String)
  | createFolder (parentDir : String) (name : String)
  | createFile (parentDir : String) (name : String)
  | deleteItem (item : Item)
  | renameItem (item : Item) (newName : String)
  | disconnect
  | other (type : String)
deriving DecidableEq, Repr

/-- One `sftpTrackedFiles` record (keyed by the local temporary path). -/
structure TrackInfo where
  remotePath : String
  connectionId : String
  watcher : Nat
  debounceTimeout : Option Nat
deriving DecidableEq, Repr

/-- Module state of `startSftpServer` in `src/unnamed/part_014`: the
connection registry, the tracked-files map of the auto-sync feature, and
a fresh-handle counter (for client objects, watchers and timers). -/
structure GatewayState where
  sftpConnections : List (String × WsSftp.ConnDetails)
  sftpTrackedFiles : List (String × TrackInfo)
  nextHandle : Nat
deriving DecidableEq, Repr

/-- Filesystem-watcher actions (`fs.watch` / `watcher.close`). -/
inductive WatcherAction
  | watch (path : String) (handle : Nat)
  | close (handle : Nat)
deriving DecidableEq, Repr

/-- Timer actions (`setTimeout` / `clearTimeout`; `clear none` models
`clearTimeout(null)`, a no-op call the code still makes). -/
inductive TimerAction
  | set (handle : Nat) (delayMs : Nat)
  | clear (handle : Option Nat)
deriving DecidableEq, Repr

/-- Local-filesystem actions of the gateway host. -/
inductive FsAction
  | writeFile (path : String) (buffer : JsBuffer)
  | unlink (path : String)
deriving DecidableEq, Repr

/-- Oracle for the gateway host's local filesystem writes
(`fs.writeFile` result: `none` = success). -/
structure LocalFs where
  writeFileRes : String → Option String

def localFsStub : LocalFs where
  writeFileRes := fun _ => none

/-- Everything one `ws.on("message")` invocation of the auto-sync variant
produces. -/
structure StepResult where
  state : GatewayState
  outputs : List OutMsg
  sshActions : List SshAction
  sftpRequests : List SftpRequest
  watcherActions : List WatcherAction
  timerActions : List TimerAction
  fsActions : List FsAction
deriving DecidableEq, Repr

/-- Modelled from the spec: the `SFTP_TEMP_DIR` constant is imported from
`./constants`, a module that is not in the tree; the spec only requires a
directory for "a uniquely named local temporary path", so an arbitrary
fixed directory stands in (no proved property depends on its value). -/
def SFTP_TEMP_DIR : String := "/sftp_temp"

/-- The parent directory of the gateway module (`path.join(__dirname,
'..')`), stripped from the local path reported in `download_complete`;
the concrete value is deployment-dependent. -/
def APP_PARENT_DIR : String := "/gateway"

/-- JS `s.replace(pre, "")` for a string pattern: remove the first
occurrence of `pre` (JS `String.prototype.replace` with a string pattern
replaces only the first match). -/
def stripOnce (s pre : String) : String :=
  match s.splitOn pre with
  | [] => s
  | [x] => x
  | x :: y :: rest => x ++ String.intercalate pre (y :: rest)

def noop (st : GatewayState) : StepResult := ⟨st, [], [], [], [], [], []⟩

/-- The `ws.on("message")` handler of `src/unnamed/part_014`.  `now` is
the value of `Date.now()` during the invocation; malformed JSON (`none`)
is only logged, nothing is sent. -/
def handleMessage (st : GatewayState) (connectionId : String)
    (msg : Option Msg) (fs : RemoteFs) (lfs : LocalFs) (now : Nat) : StepResult :=
  match msg with
  | none => noop st
  | some m =>
    let connDetails := mapGet st.sftpConnections connectionId
    let sftp := connDetails.bind (fun d => d.sftp)
    match m with
    | .connect host port username _password =>
        let handle := st.nextHandle
        ⟨⟨mapSet st.sftpConnections connectionId ⟨handle, none⟩,
          st.sftpTrackedFiles, st.nextHandle + 1⟩,
         [], [.connect host (portOrDefault port) username 20000 handle], [], [], [], []⟩
    | .list reqPath isRoot =>
        match sftp with
        | none => noop st
        | some _ =>
            match fs.readdirRes reqPath with
            | .error e =>
                ⟨st, [.error ("SFTP list error: " ++ e)], [], [.readdir reqPath], [], [], []⟩
            | .ok l =>
                ⟨st, [.listRespRoot reqPath (WsSftp.listItems reqPath l) isRoot], [],
                 [.readdir reqPath], [], [], []⟩
    | .downloadAndTrack remotePath =>
        match sftp with
        | none => noop st
        | some _ =>
            let localFileName := posixBasename remotePath
            let localPath := WsSftp.hostJoin SFTP_TEMP_DIR
              (connectionId ++ "-" ++ toString now ++ "-" ++ localFileName)
            match fs.fastGetRes remotePath localPath with
            | some e =>
                ⟨st, [.error ("Download failed: " ++ e)], [],
                 [.fastGet remotePath localPath], [], [], []⟩
            | none =>
                let watcher := st.nextHandle
                ⟨⟨st.sftpConnections,
                  mapSet st.sftpTrackedFiles localPath
                    ⟨remotePath, connectionId, watcher, none⟩,
                  st.nextHandle + 1⟩,
                 [.downloadComplete (stripOnce localPath APP_PARENT_DIR) remotePath], [],
                 [.fastGet remotePath localPath], [.watch localPath watcher], [], []⟩
    | .upload remoteDir fileName fileData _encoding =>
        match sftp with
        | none => noop st
        | some _ =>
            let remotePath := posixJoin remoteDir fileName
            let tempFilePath := WsSftp.hostJoin SFTP_TEMP_DIR
              ("upload-" ++ toString now ++ "-" ++ fileName)
            let buffer : JsBuffer := ⟨fileData, "base64"⟩
            let wAct := [FsAction.writeFile tempFilePath buffer]
            match lfs.writeFileRes tempFilePath with
            | some e =>
                ⟨st, [.error ("Failed to write temp file for upload: " ++ e)],
                 [], [], [], [], wAct⟩
            | none =>
                match fs.fastPutRes tempFilePath remotePath with
                | some e =>
                    ⟨st, [.error ("Upload failed: " ++ e)], [],
                     [.fastPut tempFilePath remotePath], [], [],
                     wAct ++ [.unlink tempFilePath]⟩
                | none =>
                    ⟨st, [.opSuccess ("Uploaded " ++ fileName ++ " successfully.")
                            remoteDir none], [],
                     [.fastPut tempFilePath remotePath], [], [],
                     wAct ++ [.unlink tempFilePath]⟩
    | .createFolder parentDir name =>
        match sftp with
        | none => noop st
        | some _ =>
            let newPath := posixJoin parentDir name
            match fs.mkdirRes newPath with
            | some e =>
                ⟨st, [.error ("Failed to create folder: " ++ e)], [],
                 [.mkdir newPath], [], [], []⟩
            | none =>
                ⟨st, [.opSuccess ("Created folder " ++ name ++ ".") parentDir none], [],
                 [.mkdir newPath], [], [], []⟩
    | .createFile parentDir name =>
        match sftp with
        | none => noop st
        | some _ =>
            let newPath := posixJoin parentDir name
            let req := SftpRequest.writeStream newPath (some ⟨"", "utf8"⟩)
            match fs.writeRes newPath with
            | some e =>
                ⟨st, [.error ("Failed to create file: " ++ e)], [], [req], [], [], []⟩
            | none =>
                ⟨st, [.opSuccess ("Created file " ++ name ++ ".") parentDir none], [],
                 [req], [], [], []⟩
    | .deleteItem item =>
        match sftp with
        | none => noop st
        | some _ =>
            let dir := posixDirname item.path
            let req := if item.type = "folder" then SftpRequest.rmdir item.path
                       else SftpRequest.unlink item.path
            let res := if item.type = "folder" then fs.rmdirRes item.path
                       else fs.unlinkRes item.path
            match res with
            | some e =>
                ⟨st, [.error ("Failed to delete " ++ item.name ++ ": " ++ e)], [],
                 [req], [], [], []⟩
            | none =>
                ⟨st, [.opSuccess ("Deleted " ++ item.name ++ ".") dir none], [],
                 [req], [], [], []⟩
    | .renameItem item newName =>
        match sftp with
        | none => noop st
        | some _ =>
            let dir := posixDirname item.path
            let newPath := posixJoin dir newName
            match fs.renameRes item.path newPath with
            | some e =>
                ⟨st, [.error ("Failed to rename " ++ item.name ++ ": " ++ e)], [],
                 [.renameOp item.path newPath], [], [], []⟩
            | none =>
                ⟨st, [.opSuccess ("Renamed " ++ item.name ++ " to " ++ newName ++ ".")
                        dir none], [],
                 [.renameOp item.path newPath], [], [], []⟩
    | .disconnect =>
        match connDetails with
        | some d => ⟨st, [], [.endConn d.ssh], [], [], [], []⟩
        | none => noop st
    | .other _ => noop st

/-- The `fs.watch` callback of a tracked file: on a `change` event, reset
the debounce timer (clear the stored one, start a fresh 500 ms timer and
store its handle); other event types do nothing. -/
def handleFileChange (st : GatewayState) (localPath : String)
    (eventType : String) : GatewayState × List TimerAction :=
  if eventType = "change" then
    match mapGet st.sftpTrackedFiles localPath with
    | none => (st, [])
    | some ti =>
        let h := st.nextHandle
        (⟨st.sftpConnections,
          mapSet st.sftpTrackedFiles localPath { ti with debounceTimeout := some h },
          st.nextHandle + 1⟩,
         [.clear ti.debounceTimeout, .set h 500])
  else (st, [])

/-- The debounce-timer callback: emit `upload_status: started`, re-upload
via `sftp.fastPut`, then emit `complete` on success or `error` with the
failure message. -/
def handleDebounceFire (localPath remotePath : String)
    (fastPutResult : Option String) : List OutMsg × List SftpRequest :=
  (.uploadStatus "started" remotePath none ::
    (match fastPutResult with
     | some e => [.uploadStatus "error" remotePath (some e)]
     | none => [.uploadStatus "complete" remotePath none]),
   [.fastPut localPath remotePath])

/-- Cleanup performed for a tracked file on channel close. -/
inductive CleanupAction
  | watcherClose (handle : Nat)
  | timerClear (handle : Option Nat)
  | fileUnlink (path : String)
deriving DecidableEq, Repr

/-- The `conn.on("error")` handler (auto-sync variant): send the error and
purge the registry entry; tracked files are not touched. -/
def handleSshError (st : GatewayState) (connectionId : String) (e : String) :
    GatewayState × List OutMsg :=
  (⟨mapDelete st.sftpConnections connectionId, st.sftpTrackedFiles, st.nextHandle⟩,
   [.error ("Connection Error: " ++ e)])

/-- The `conn.on("close")` handler (auto-sync variant): send
`status: disconnected` and purge the registry entry; tracked files are
not touched. -/
def handleSshClose (st : GatewayState) (connectionId : String) :
    GatewayState × List OutMsg :=
  (⟨mapDelete st.sftpConnections connectionId, st.sftpTrackedFiles, st.nextHandle⟩,
   [.status "disconnected"])

/-- The `ws.on("close")` handler of `src/unnamed/part_014`: end the
secure-shell connection, purge the registry entry, and for every tracked
file of this connection close its watcher, cancel its pending debounce
timer, delete the temporary local file and drop the record. -/
def handleWsClose (st : GatewayState) (connectionId : String) :
    GatewayState × List SshAction × List CleanupAction :=
  let sshActs := match mapGet st.sftpConnections connectionId with
    | some d => [SshAction.endConn d.ssh]
    | none => []
  let mine := fun (p : String × TrackInfo) => (p.2.connectionId = connectionId : Bool)
  let removed := st.sftpTrackedFiles.filter mine
  let kept := st.sftpTrackedFiles.filter (fun p => !(mine p))
  (⟨mapDelete st.sftpConnections connectionId, kept, st.nextHandle⟩,
   sshActs,
   removed.flatMap (fun p =>
     [CleanupAction.watcherClose p.2.watcher,
      CleanupAction.timerClear p.2.debounceTimeout,
      CleanupAction.fileUnlink p.1]))

end AutoSync

namespace AutoSync

/-- Readiness check of the auto-sync variant: same `connDetails?.sftp`
presence test as the base variant. -/
def sftpUnready (st : GatewayState) (connectionId : String) : Bool :=
  ((mapGet st.sftpConnections connectionId).bind (fun d => d.sftp)).isNone

end AutoSync

/-- Parsed inbound messages of the `sftpWss` protocol of `src/main.js`
(message types: connect, list — whose payload is the path itself —
disconnect; `other` stands for any further type string). -/
inductive MainMsg
  | connect (host : Option String) (port : Option String)
      (username : Option String) (password : Option String)
  | list (payload : Option String)
  | disconnect
  | other (type : String)
deriving DecidableEq, Repr

/-- Whether a `readdir` entry is a directory: on the wire, directory-ness
of a remote entry is carried by its `ls -l`-style longname, whose first
character is `d` for a directory (the test all three bridges apply). -/
def RemoteEntry.isDirectory (e : RemoteEntry) : Prop :=
  e.longname.data.take 1 = ['d']

instance (e : RemoteEntry) : Decidable e.isDirectory := by
  unfold RemoteEntry.isDirectory
  infer_instance

namespace MainSftp

/-- JS `s.replace(/\\/g, "/")`: rewrite every backslash into a forward
slash (the "Normalize path" step of the main.js list handler). -/
def backslashToSlash (s : String) : String :=
  String.mk (s.data.map (fun c => if c = '\\' then '/' else c))

/-- The `data.payload || "."` default of the main.js list branch: the
payload is the path itself, with absent or empty falling back to `.`. -/
def reqPathOf (payload : Option String) : String :=
  match payload with
  | none => "."
  | some p => if p = "" then "." else p

/-- One item of the main.js `list` response: host `path.join` (the
gateway host is POSIX) followed by the backslash normalization, with the
object keys in source order. -/
def listItem (reqPath : String) (e : RemoteEntry) : List (String × JVal) :=
  [("name", .s e.filename),
   ("path", .s (backslashToSlash (WsSftp.hostJoin reqPath e.filename))),
   ("type", .s (if e.longname.data.take 1 = ['d'] then "folder" else "file")),
   ("size", .n (Int.ofNat e.size)),
   ("modified", .n (Int.ofNat e.mtime))]

def listItems (reqPath : String) (l : List RemoteEntry) :
    List (List (String × JVal)) :=
  l.map (listItem reqPath)

/-- The ws.on("message") handler of the `sftpWss` server embedded in
`src/main.js` (message types: connect, list, disconnect; other types and
operations while `connDetails?.sftp` is absent fall through the dispatch;
malformed JSON is only logged).  It shares the registry-entry shape of
the ws-sftp.js variant. -/
def handleMessage (st : WsSftp.GatewayState) (connectionId : String)
    (msg : Option MainMsg) (fs : RemoteFs) : WsSftp.StepResult :=
  match msg with
  | none => ⟨st, [], [], []⟩
  | some m =>
    let connDetails := mapGet st.sftpConnections connectionId
    let sftp := connDetails.bind (fun d => d.sftp)
    match m with
    | .connect host port username _password =>
        let handle := st.nextHandle
        ⟨⟨mapSet st.sftpConnections connectionId ⟨handle, none⟩, st.nextHandle + 1⟩,
         [], [.connect host (portOrDefault port) username 20000 handle], []⟩
    | .list payload =>
        match sftp with
        | none => ⟨st, [], [], []⟩
        | some _ =>
            let reqPath := reqPathOf payload
            match fs.readdirRes reqPath with
            | .error e =>
                ⟨st, [.error ("SFTP list error: " ++ e)], [], [.readdir reqPath]⟩
            | .ok l =>
                ⟨st, [.listResp reqPath (listItems reqPath l)], [], [.readdir reqPath]⟩
    | .disconnect =>
        match connDetails with
        | some d => ⟨st, [], [.endConn d.ssh], []⟩
        | none => ⟨st, [], [], []⟩
    | .other _ => ⟨st, [], [], []⟩

end MainSftp

/-- A sample `readdir` entry: a 5-byte regular file `x.txt`. -/
def entryX : RemoteEntry :=
  ⟨"x.txt", "-rw-r--r-- 1 u u 5 Jan 1 x.txt", 5, 100⟩

/-- An oracle whose directories all contain exactly `entryX`. -/
def fsOneFile : RemoteFs :=
  { fsStub with readdirRes := fun _ => .ok [entryX] }

/-- An oracle on which every `readdir` fails with `No such file`. -/
def fsFailList : RemoteFs :=
  { fsStub with readdirRes := fun _ => .error "No such file" }

/-- A `readdir` entry whose name contains a backslash: the regular file
named `a\\b`. -/
def entryBack : RemoteEntry :=
  ⟨"a\\b", "-rw-r--r-- 1 u u 3 Jan 1 ab", 3, 50⟩

/-- An oracle whose directories all contain exactly `entryBack`. -/
def fsBack : RemoteFs :=
  { fsStub with readdirRes := fun _ => .ok [entryBack] }

/-- A ws-sftp state whose session `c1` is fully connected
(secure-shell handle 0, SFTP subsystem handle 1). -/
def stReady : WsSftp.GatewayState := ⟨[("c1", ⟨0, some 1⟩)], 2⟩

/-- An auto-sync state whose session `c1` is fully connected and tracks
one temporary local file (watcher handle 2, no pending timer). -/
def stTracked : AutoSync.GatewayState :=
  ⟨[("c1", ⟨0, some 1⟩)],
   [("/sftp_temp/t.txt", ⟨"/remote/t.txt", "c1", 2, none⟩)], 3⟩

/-- The `connect` payload used in concrete runs. -/
def connectMsg : ClientMsg :=
  .connect (some "h") none (some "u") (some "p")

/-- State after the first `connect` of the double-connect run. -/
def c3s1 : WsSftp.GatewayState :=
  (WsSftp.handleMessage ⟨[], 0⟩ "c1" (some connectMsg) fsStub).state

/-- State after the secure-shell session became ready and the SFTP
subsystem (handle 5) was stored. -/
def c3s2 : WsSftp.GatewayState := (WsSftp.handleSshReady c3s1 "c1" (.ok 5)).1

/-- The step processing a second `connect` on the same channel. -/
def c3r3 : WsSftp.StepResult :=
  WsSftp.handleMessage c3s2 "c1" (some connectMsg) fsStub

/-! ### Basic lemmas and sanity checks -/

theorem mapGet_mapDelete {α : Type} (m : List (String × α)) (k : String) :
    mapGet (mapDelete m k) k = none := by
  induction m with
  | nil => rfl
  | cons p rest ih =>
      cases p with
      | mk k' v =>
        by_cases h : k' = k
        · simpa [mapDelete, h] using ih
        · simpa [mapDelete, mapGet, h] using ih

theorem mapGet_mapSet_self {α : Type} (m : List (String × α)) (k : String)
    (v : α) : mapGet (mapSet m k v) k = some v := by
  induction m with
  | nil => simp [mapSet, mapGet]
  | cons p rest ih =>
      cases p with
      | mk k' v' =>
        by_cases h : k' = k
        · simp [mapSet, mapGet, h]
        · simp [mapSet, mapGet, h, ih]

example : posixJoin "/home/u" "x.txt" = "/home/u/x.txt" := by decide
example : posixJoin "a/" "b" = "a/b" := by decide
example : posixJoin "" "" = "." := by decide
example : posixBasename "/a/b" = "b" := by decide
example : posixBasename "/" = "" := by decide
example : posixDirname "/a/b" = "/a" := by decide
example : posixDirname "a" = "." := by decide
example : posixDirname "/a" = "/" := by decide
example : jsParseInt "2222" = some 2222 := by decide
example : jsParseInt "abc" = none := by decide
example : portOrDefault none = 22 := by decide
example : portOrDefault (some "0") = 22 := by decide

/-! ### Claim C7: malformed inbound JSON is logged and ignored or answered
with a generic error, and the session state is unchanged -/

/-- C7: for every inbound message that is not valid JSON, the ws-sftp
bridge answers with the generic error `Invalid message format received.`
while the Terminus bridge and the auto-sync bridge only log; in all three
bridges the gateway state (registry entry, secure-shell handle, streams)
is exactly unchanged and no secure-shell or SFTP action is performed. -/
theorem c7_malformed_json_ignored :
    (∀ (st : WsSftp.GatewayState) (cid : String) (fs : RemoteFs),
      WsSftp.handleMessage st cid none fs =
        ⟨st, [.error "Invalid message format received."], [], []⟩) ∧
    (∀ (st : Terminus.GatewayState) (cid : String),
      Terminus.handleMessage st cid none = (st, [], [])) ∧
    (∀ (st : AutoSync.GatewayState) (cid : String) (fs : RemoteFs)
      (lfs : AutoSync.LocalFs) (now : Nat),
      AutoSync.handleMessage st cid none fs lfs now = ⟨st, [], [], [], [], [], []⟩) :=
  ⟨fun _ _ _ => rfl, fun _ _ => rfl, fun _ _ _ _ _ => rfl⟩

/-! ### Claim C9: connect failure emits exactly one error, purges the
registry entry, and the handshake timeout is 20000 ms -/

/-- C9: in both the SFTP bridge and the Terminus bridge, the connection
error handler sends exactly one `error` message (carrying
`Connection Error:` followed by the underlying message) and afterwards the
registry holds no entry for the session id; and every `connect` request
initiates the outbound handshake with `readyTimeout` 20000 ms (the ~20 s
upper bound). -/
theorem c9_connect_failure_teardown :
    (∀ (st : WsSftp.GatewayState) (cid : String) (e : String),
      (WsSftp.handleSshError st cid e).2 = [.error ("Connection Error: " ++ e)] ∧
      mapGet (WsSftp.handleSshError st cid e).1.sftpConnections cid = none) ∧
    (∀ (st : Terminus.GatewayState) (cid : String) (e : String),
      (Terminus.handleSshError st cid e).2 = [.error ("Connection Error: " ++ e)] ∧
      mapGet (Terminus.handleSshError st cid e).1.sshConnections cid = none) ∧
    (∀ (st : AutoSync.GatewayState) (cid : String) (e : String),
      (AutoSync.handleSshError st cid e).2 = [.error ("Connection Error: " ++ e)] ∧
      mapGet (AutoSync.handleSshError st cid e).1.sftpConnections cid = none) ∧
    (∀ (st : WsSftp.GatewayState) (cid : String) (host port username password : Option String)
      (fs : RemoteFs),
      (WsSftp.handleMessage st cid (some (.connect host port username password)) fs).sshActions =
        [.connect host (portOrDefault port) username 20000 st.nextHandle]) ∧
    (∀ (st : Terminus.GatewayState) (cid : String) (host port username password : Option String),
      (Terminus.handleMessage st cid (some (.connect host port username password))).2.2 =
        [.connect host 22 username 20000 st.nextHandle]) := by
  refine ⟨fun st cid e => ⟨rfl, ?_⟩, fun st cid e => ⟨rfl, ?_⟩,
    fun st cid e => ⟨rfl, ?_⟩, fun _ _ _ _ _ _ _ => rfl, fun _ _ _ _ _ _ => rfl⟩
  · exact mapGet_mapDelete st.sftpConnections cid
  · exact mapGet_mapDelete st.sshConnections cid
  · exact mapGet_mapDelete st.sftpConnections cid

/-! ### Claim C8: the auto-sync debounce resets a 500 ms timer per change
event, and upload status phases are exactly started / complete / error -/

/-- C8: a `change` event on a tracked local file clears the stored
debounce timer and starts a fresh 500 ms one (whose handle is stored in
the record); any other event type does nothing; and when the timer fires,
the callback emits `upload_status: started`, issues the `fastPut`
re-upload to the original remote path, and then emits exactly
`upload_status: complete` on success or `upload_status: error` (with the
failure message) on failure. -/
theorem c8_debounced_reupload (st : AutoSync.GatewayState)
    (lp : String) (ti : AutoSync.TrackInfo) (et : String)
    (rp : String) (e : String)
    (htracked : mapGet st.sftpTrackedFiles lp = some ti)
    (hother : ¬ et = "change") :
    AutoSync.handleFileChange st lp "change" =
      (⟨st.sftpConnections,
        mapSet st.sftpTrackedFiles lp { ti with debounceTimeout := some st.nextHandle },
        st.nextHandle + 1⟩,
       [.clear ti.debounceTimeout, .set st.nextHandle 500]) ∧
    AutoSync.handleFileChange st lp et = (st, []) ∧
    AutoSync.handleDebounceFire lp rp none =
      ([.uploadStatus "started" rp none, .uploadStatus "complete" rp none],
       [.fastPut lp rp]) ∧
    AutoSync.handleDebounceFire lp rp (some e) =
      ([.uploadStatus "started" rp none, .uploadStatus "error" rp (some e)],
       [.fastPut lp rp]) := by
  refine ⟨?_, ?_, rfl, rfl⟩
  · simp [AutoSync.handleFileChange, htracked]
  · simp [AutoSync.handleFileChange, hother]

/-- C8 witness: the debounce machinery evaluated on the concrete tracked
state `stTracked`. -/
theorem c8_debounced_reupload_witness :
    AutoSync.handleFileChange stTracked "/sftp_temp/t.txt" "change" =
      (⟨[("c1", ⟨0, some 1⟩)],
        [("/sftp_temp/t.txt", ⟨"/remote/t.txt", "c1", 2, some 3⟩)], 4⟩,
       [.clear none, .set 3 500]) ∧
    AutoSync.handleFileChange stTracked "/sftp_temp/t.txt" "rename" = (stTracked, []) ∧
    AutoSync.handleDebounceFire "/sftp_temp/t.txt" "/remote/t.txt" none =
      ([.uploadStatus "started" "/remote/t.txt" none,
        .uploadStatus "complete" "/remote/t.txt" none],
       [.fastPut "/sftp_temp/t.txt" "/remote/t.txt"]) ∧
    AutoSync.handleDebounceFire "/sftp_temp/t.txt" "/remote/t.txt" (some "boom") =
      ([.uploadStatus "started" "/remote/t.txt" none,
        .uploadStatus "error" "/remote/t.txt" (some "boom")],
       [.fastPut "/sftp_temp/t.txt" "/remote/t.txt"]) := by
  have h := c8_debounced_reupload stTracked "/sftp_temp/t.txt"
    ⟨"/remote/t.txt", "c1", 2, none⟩ "rename" "/remote/t.txt" "boom"
    (by decide) (by decide)
  exact ⟨by simpa [stTracked] using h.1, h.2.1, h.2.2.1, h.2.2.2⟩

/-! ### Claim C1: operations before the SFTP subsystem is ready -/

/-- C1 counterexample: a `list` request on a session that never connected
produces no output at all — in particular no "not connected" error message
is returned to the client (the request is also not forwarded: no SFTP
request, no secure-shell action, state unchanged). -/
theorem c1_counterexample :
    WsSftp.handleMessage ⟨[], 0⟩ "c1" (some (.list "/home")) fsStub =
      ⟨⟨[], 0⟩, [], [], []⟩ := by
  rfl

/-- C1 amended: an operation request (list, get_content, upload, download,
move, create_folder, create_file, delete, rename) received while the
session's SFTP subsystem handle is not ready is silently dropped: the
gateway sends nothing back to the client (no "not connected" error
exists in the code), performs no secure-shell action, issues no SFTP
request, and leaves the state unchanged. -/
theorem c1_amended (st : WsSftp.GatewayState) (cid : String) (m : ClientMsg)
    (fs : RemoteFs) (hop : WsSftp.isSftpOp m = true)
    (hnr : WsSftp.sftpUnready st cid = true) :
    WsSftp.handleMessage st cid (some m) fs = ⟨st, [], [], []⟩ := by
  have h2 : (mapGet st.sftpConnections cid).bind (fun d => d.sftp) = none := by
    simpa [WsSftp.sftpUnready, Option.isNone_iff_eq_none] using hnr
  cases m <;>
    first
      | (simp only [WsSftp.handleMessage]; rw [h2])
      | simp [WsSftp.isSftpOp] at hop

/-- C1 witness: the amended theorem applied to a `get_content` request on
the empty registry. -/
theorem c1_amended_witness :
    WsSftp.isSftpOp (.getContent "/etc/passwd") = true ∧
    WsSftp.sftpUnready ⟨[], 0⟩ "c1" = true ∧
    WsSftp.handleMessage ⟨[], 0⟩ "c1" (some (.getContent "/etc/passwd")) fsStub =
      ⟨⟨[], 0⟩, [], [], []⟩ :=
  ⟨by decide, by decide,
   c1_amended ⟨[], 0⟩ "c1" (.getContent "/etc/passwd") fsStub (by decide) (by decide)⟩

/-! ### Claim C2: teardown of watchers / timers / temp files -/

/-- C2 counterexample: on the session `c1` of `stTracked` (one tracked
temporary file with live watcher 2), a `disconnect` message only ends the
secure-shell connection — no watcher is closed, no timer cleared, no temp
file deleted, and the tracked record survives even after the resulting
secure-shell `close` event has purged the registry entry. -/
theorem c2_counterexample :
    AutoSync.handleMessage stTracked "c1" (some .disconnect) fsStub
        AutoSync.localFsStub 0 =
      ⟨stTracked, [], [.endConn 0], [], [], [], []⟩ ∧
    (AutoSync.handleSshClose stTracked "c1").1 =
      ⟨[], [("/sftp_temp/t.txt", ⟨"/remote/t.txt", "c1", 2, none⟩)], 3⟩ ∧
    mapGet (AutoSync.handleSshClose stTracked "c1").1.sftpConnections "c1" = none :=
  ⟨rfl, rfl, rfl⟩

/-- C2 amended: when the client-facing channel closes, the registry entry
is purged and every tracked file of that session has its watcher closed,
its pending debounce timer cleared and its temporary local file deleted,
and its record dropped; after a `disconnect` message alone the registry
entry is removed only once the secure-shell `close` event fires, and the
tracked watchers/timers/temp files are released only on channel close. -/
theorem c2_amended (st : AutoSync.GatewayState) (cid lp : String)
    (ti : AutoSync.TrackInfo) :
    mapGet (AutoSync.handleWsClose st cid).1.sftpConnections cid = none ∧
    ((lp, ti) ∈ (AutoSync.handleWsClose st cid).1.sftpTrackedFiles →
      ¬ ti.connectionId = cid) ∧
    ((lp, ti) ∈ st.sftpTrackedFiles → ti.connectionId = cid →
      AutoSync.CleanupAction.watcherClose ti.watcher ∈ (AutoSync.handleWsClose st cid).2.2 ∧
      AutoSync.CleanupAction.timerClear ti.debounceTimeout ∈ (AutoSync.handleWsClose st cid).2.2 ∧
      AutoSync.CleanupAction.fileUnlink lp ∈ (AutoSync.handleWsClose st cid).2.2) ∧
    mapGet (AutoSync.handleSshClose st cid).1.sftpConnections cid = none := by
  refine ⟨mapGet_mapDelete st.sftpConnections cid, ?_, ?_, mapGet_mapDelete st.sftpConnections cid⟩
  · intro hmem
    have h := (List.mem_filter.mp hmem).2
    simpa using h
  · intro hmem hcid
    refine ⟨?_, ?_, ?_⟩ <;>
      exact List.mem_flatMap.mpr
        ⟨(lp, ti), List.mem_filter.mpr ⟨hmem, by simp [hcid]⟩, by simp⟩

/-- C2 witness: the amended theorem applied to `stTracked`. -/
theorem c2_amended_witness :
    mapGet (AutoSync.handleWsClose stTracked "c1").1.sftpConnections "c1" = none ∧
    AutoSync.CleanupAction.watcherClose 2 ∈ (AutoSync.handleWsClose stTracked "c1").2.2 ∧
    AutoSync.CleanupAction.fileUnlink "/sftp_temp/t.txt" ∈
      (AutoSync.handleWsClose stTracked "c1").2.2 := by
  have h := c2_amended stTracked "c1" "/sftp_temp/t.txt" ⟨"/remote/t.txt", "c1", 2, none⟩
  exact ⟨h.1, (h.2.2.1 (by decide) rfl).1, (h.2.2.1 (by decide) rfl).2.2⟩

/-! ### Claim C3: ownership of the secure-shell handle on double connect -/

/-- C3 counterexample: run connect, then the ready event (SFTP subsystem
handle 5 stored), then a second `connect` on the same channel: the
registry entry is reassigned from client handle 0 (whose connection and
subsystem are still open — the only secure-shell actions of the whole run
are the two connects, never an end) to fresh client handle 1. -/
theorem c3_counterexample :
    mapGet c3s2.sftpConnections "c1" = some ⟨0, some 5⟩ ∧
    mapGet c3r3.state.sftpConnections "c1" = some ⟨1, none⟩ ∧
    (WsSftp.handleMessage ⟨[], 0⟩ "c1" (some connectMsg) fsStub).sshActions =
      [.connect (some "h") 22 (some "u") 20000 0] ∧
    c3r3.sshActions = [.connect (some "h") 22 (some "u") 20000 1] ∧
    ¬ (WsSftp.ConnDetails.mk 0 (some 5) = WsSftp.ConnDetails.mk 1 none) :=
  ⟨rfl, rfl, rfl, rfl, by decide⟩

/-- C3 amended: a second `connect` on a channel whose registry entry still
exists overwrites that entry with a fresh secure-shell handle and does not
end the previous connection (the step performs exactly the one new
`connect` action); the "never reassigned while resources are open"
invariant does not hold. -/
theorem c3_amended (st : WsSftp.GatewayState) (cid : String)
    (host port username password : Option String) (fs : RemoteFs)
    (d : WsSftp.ConnDetails)
    (_hentry : mapGet st.sftpConnections cid = some d) :
    WsSftp.handleMessage st cid (some (.connect host port username password)) fs =
      ⟨⟨mapSet st.sftpConnections cid ⟨st.nextHandle, none⟩, st.nextHandle + 1⟩,
       [], [.connect host (portOrDefault port) username 20000 st.nextHandle], []⟩ ∧
    mapGet (WsSftp.handleMessage st cid
        (some (.connect host port username password)) fs).state.sftpConnections cid =
      some ⟨st.nextHandle, none⟩ :=
  ⟨rfl, mapGet_mapSet_self st.sftpConnections cid ⟨st.nextHandle, none⟩⟩

/-- C3 witness: the amended theorem applied to the connected state `c3s2`
(whose entry holds open handles 0 and 5). -/
theorem c3_amended_witness :
    mapGet c3s2.sftpConnections "c1" = some ⟨0, some 5⟩ ∧
    WsSftp.handleMessage c3s2 "c1" (some connectMsg) fsStub =
      ⟨⟨mapSet c3s2.sftpConnections "c1" ⟨1, none⟩, 2⟩, [],
       [.connect (some "h") 22 (some "u") 20000 1], []⟩ :=
  ⟨rfl,
   (c3_amended c3s2 "c1" (some "h") none (some "u") (some "p") fsStub
     ⟨0, some 5⟩ rfl).1⟩

/-! ### Claim C4: connect port selection -/

/-- C4 counterexample: a `connect` whose payload carries the numeric port
`2222` makes the Terminus bridge connect on port 22 — the payload port is
ignored there, refuting the claim that both bridges use a numeric payload
port. -/
theorem c4_counterexample :
    (Terminus.handleMessage ⟨[], 0⟩ "c1"
        (some (.connect (some "h") (some "2222") (some "u") (some "p")))).2.2 =
      [.connect (some "h") 22 (some "u") 20000 0] ∧
    jsParseInt "2222" = some 2222 ∧
    ¬ ((22 : Int) = 2222) :=
  ⟨rfl, by decide, by decide⟩

/-- C4 amended: the SFTP bridge connects on `parseInt(port, 10) || 22` —
the payload port when it parses to a nonzero integer, and 22 when the
port is absent, non-numeric or parses to 0 — while the Terminus bridge
ignores the payload port entirely and always connects on port 22; host
and username are passed through to the connector unvalidated. -/
theorem c4_amended (st : Terminus.GatewayState) (st2 : WsSftp.GatewayState)
    (cid : String) (host username password : Option String)
    (port : Option String) (fs : RemoteFs) :
    (Terminus.handleMessage st cid (some (.connect host port username password))).2.2 =
      [.connect host 22 username 20000 st.nextHandle] ∧
    (WsSftp.handleMessage st2 cid (some (.connect host port username password)) fs).sshActions =
      [.connect host (portOrDefault port) username 20000 st2.nextHandle] ∧
    (port = none → portOrDefault port = 22) ∧
    (∀ s, port = some s → jsParseInt s = none → portOrDefault port = 22) ∧
    (∀ s n, port = some s → jsParseInt s = some n → ¬ n = 0 → portOrDefault port = n) := by
  refine ⟨rfl, rfl, ?_, ?_, ?_⟩
  · intro h; subst h; rfl
  · intro s hp hn; subst hp; simp [portOrDefault, hn]
  · intro s n hp hn hn0; subst hp; simp [portOrDefault, hn, hn0]

/-- C4 witness: numeric port 2222 — used by the SFTP bridge, ignored by
the Terminus bridge. -/
theorem c4_amended_witness :
    (Terminus.handleMessage ⟨[], 0⟩ "c1"
        (some (.connect (some "h") (some "2222") (some "u") (some "p")))).2.2 =
      [.connect (some "h") 22 (some "u") 20000 0] ∧
    portOrDefault (some "2222") = 2222 := by
  have h := c4_amended ⟨[], 0⟩ ⟨[], 0⟩ "c1" (some "h") (some "u") (some "p")
    (some "2222") fsStub
  exact ⟨h.1, h.2.2.2.2 "2222" 2222 rfl (by decide) (by decide)⟩

/-! ### Shared helper lemmas for the ready / state-preservation proofs -/

theorem isNone_false_exists {α : Type} {o : Option α} (h : o.isNone = false) :
    ∃ x, o = some x := by
  cases o with
  | none => simp at h
  | some x => exact ⟨x, rfl⟩

theorem handleMessage_op_state (st : WsSftp.GatewayState) (cid : String)
    (m : ClientMsg) (fs : RemoteFs) (hop : WsSftp.isSftpOp m = true) :
    (WsSftp.handleMessage st cid (some m) fs).state = st := by
  cases m <;>
    first
      | (simp only [WsSftp.handleMessage]
         (repeat' split) <;> rfl)
      | simp [WsSftp.isSftpOp] at hop

/-! ### Claim C5: shape of the list response items -/

theorem map_backslash_eq_self (l : List Char) (h : ¬ '\\' ∈ l) :
    l.map (fun c => if c = '\\' then '/' else c) = l := by
  induction l with
  | nil => rfl
  | cons c cs ih =>
      have hc : ¬ c = '\\' := fun hc => h (hc ▸ List.mem_cons_self c cs)
      simp only [List.map, if_neg hc,
        ih (fun hm => h (List.mem_cons_of_mem c hm))]

theorem backslashToSlash_eq_self (s : String) (h : ¬ '\\' ∈ s.data) :
    MainSftp.backslashToSlash s = s := by
  cases s with
  | mk data =>
      simp only [MainSftp.backslashToSlash]
      exact congrArg String.mk (map_backslash_eq_self data h)

/-- C5 counterexample: the list response items carry the key `modified`,
not `modifiedTime` as the claim states (a concrete ws-sftp.js run returns
the full item and looking up `modifiedTime` yields nothing); and in the
main.js variant, the emitted path for the remote entry named `a\\b` is
`/home/u/a/b` — host join followed by the global backslash rewrite —
which differs from the POSIX join `/home/u/a\\b` the claim requires. -/
theorem c5_counterexample :
    (WsSftp.handleMessage stReady "c1" (some (.list "/home/u")) fsOneFile).outputs =
      [.listResp "/home/u"
        [[("name", .s "x.txt"), ("path", .s "/home/u/x.txt"), ("type", .s "file"),
          ("size", .n 5), ("modified", .n 100)]]] ∧
    List.lookup "modifiedTime" (WsSftp.listItem "/home/u" entryX) = none ∧
    (MainSftp.handleMessage stReady "c1" (some (.list (some "/home/u"))) fsBack).outputs =
      [.listResp "/home/u"
        [[("name", .s "a\\b"), ("path", .s "/home/u/a/b"), ("type", .s "file"),
          ("size", .n 3), ("modified", .n 50)]]] ∧
    posixJoin "/home/u" "a\\b" = "/home/u/a\\b" ∧
    ¬ ("/home/u/a/b" = "/home/u/a\\b") :=
  ⟨rfl, by decide, rfl, by decide, by decide⟩

/-- C5 amended: every successful `list` — in ws-sftp.js, in main.js and
in the part_014 variant — responds with one item per remote entry, each
an object with fields name, path, type, size and `modified` (the field is
named `modified`, not `modifiedTime`), and type is `folder` exactly when
the remote entry is a directory.  In ws-sftp.js and part_014 the path is
the requested parent joined with the entry name by `path.posix.join`; the
main.js variant instead applies host `path.join` and then rewrites every
backslash to a forward slash, which coincides with the POSIX join exactly
on joined paths containing no backslash (an entry name containing a
backslash is mangled). -/
theorem c5_amended (reqPath : String) (e : RemoteEntry)
    (st : WsSftp.GatewayState) (cid : String) (fs : RemoteFs)
    (l : List RemoteEntry) (payload : Option String) (fs2 : RemoteFs)
    (l2 : List RemoteEntry) (ast : AutoSync.GatewayState) (cid2 : String)
    (fs3 : RemoteFs) (l3 : List RemoteEntry) (lfs : AutoSync.LocalFs)
    (now : Nat) (isRoot : Option Bool)
    (hready : WsSftp.sftpUnready st cid = false)
    (hok : fs.readdirRes reqPath = .ok l)
    (hok2 : fs2.readdirRes (MainSftp.reqPathOf payload) = .ok l2)
    (haready : AutoSync.sftpUnready ast cid2 = false)
    (hok3 : fs3.readdirRes reqPath = .ok l3) :
    (WsSftp.handleMessage st cid (some (.list reqPath)) fs).outputs =
      [.listResp reqPath (WsSftp.listItems reqPath l)] ∧
    (MainSftp.handleMessage st cid (some (.list payload)) fs2).outputs =
      [.listResp (MainSftp.reqPathOf payload)
        (MainSftp.listItems (MainSftp.reqPathOf payload) l2)] ∧
    (AutoSync.handleMessage ast cid2 (some (.list reqPath isRoot)) fs3 lfs now).outputs =
      [.listRespRoot reqPath (WsSftp.listItems reqPath l3) isRoot] ∧
    (WsSftp.listItem reqPath e).map Prod.fst =
      ["name", "path", "type", "size", "modified"] ∧
    (MainSftp.listItem reqPath e).map Prod.fst =
      ["name", "path", "type", "size", "modified"] ∧
    List.lookup "path" (WsSftp.listItem reqPath e) =
      some (.s (posixJoin reqPath e.filename)) ∧
    List.lookup "path" (MainSftp.listItem reqPath e) =
      some (.s (MainSftp.backslashToSlash (WsSftp.hostJoin reqPath e.filename))) ∧
    (¬ '\\' ∈ (WsSftp.hostJoin reqPath e.filename).data →
      MainSftp.backslashToSlash (WsSftp.hostJoin reqPath e.filename) =
        posixJoin reqPath e.filename) ∧
    (List.lookup "type" (WsSftp.listItem reqPath e) = some (.s "folder") ↔
      e.isDirectory) ∧
    (List.lookup "type" (MainSftp.listItem reqPath e) = some (.s "folder") ↔
      e.isDirectory) ∧
    List.lookup "modifiedTime" (WsSftp.listItem reqPath e) = none ∧
    List.lookup "modifiedTime" (MainSftp.listItem reqPath e) = none := by
  obtain ⟨hh, hsome⟩ := isNone_false_exists hready
  obtain ⟨ah, hasome⟩ := isNone_false_exists haready
  have htypeW : List.lookup "type" (WsSftp.listItem reqPath e) =
      some (.s (if e.longname.data.take 1 = ['d'] then "folder" else "file")) := rfl
  have htypeM : List.lookup "type" (MainSftp.listItem reqPath e) =
      some (.s (if e.longname.data.take 1 = ['d'] then "folder" else "file")) := rfl
  refine ⟨?_, ?_, ?_, rfl, rfl, rfl, rfl,
    fun hnb => backslashToSlash_eq_self (WsSftp.hostJoin reqPath e.filename) hnb,
    ?_, ?_, rfl, rfl⟩
  · simp only [WsSftp.handleMessage]
    rw [hsome, hok]
  · simp only [MainSftp.handleMessage]
    rw [hsome, hok2]
  · simp only [AutoSync.handleMessage]
    rw [hasome, hok3]
  · rw [htypeW]
    by_cases hd : e.longname.data.take 1 = ['d'] <;>
      simp [RemoteEntry.isDirectory, hd]
  · rw [htypeM]
    by_cases hd : e.longname.data.take 1 = ['d'] <;>
      simp [RemoteEntry.isDirectory, hd]

/-- C5 witness: the amended theorem applied to the `x.txt` listing on
ws-sftp.js, the `a\\b` listing on the main.js variant, and the backslash
agreement at `x.txt`. -/
theorem c5_amended_witness :
    (WsSftp.handleMessage stReady "c1" (some (.list "/home/u")) fsOneFile).outputs =
      [.listResp "/home/u" (WsSftp.listItems "/home/u" [entryX])] ∧
    (MainSftp.handleMessage stReady "c1" (some (.list (some "/home/u"))) fsBack).outputs =
      [.listResp "/home/u" (MainSftp.listItems "/home/u" [entryBack])] ∧
    MainSftp.backslashToSlash (WsSftp.hostJoin "/home/u" "x.txt") =
      posixJoin "/home/u" "x.txt" ∧
    List.lookup "modifiedTime" (WsSftp.listItem "/home/u" entryX) = none := by
  obtain ⟨h1, h2, -, -, -, -, -, hag, -, -, h11, -⟩ :=
    c5_amended "/home/u" entryX stReady "c1" fsOneFile [entryX] (some "/home/u")
      fsBack [entryBack] stTracked "c1" fsOneFile [entryX] AutoSync.localFsStub 0 none
      (by decide) rfl rfl (by decide) rfl
  exact ⟨h1, h2, hag (by decide), h11⟩

/-! ### Claim C6: failed operations — error text and session survival -/

/-- C6 counterexample: a failed `list` on `/a/b` answers
`Failed to list b: No such file`, which contains only the POSIX basename
`b` — the offending path `/a/b` does not occur in the message. -/
theorem c6_counterexample :
    (WsSftp.handleMessage stReady "c1" (some (.list "/a/b")) fsFailList).outputs =
      [.error "Failed to list b: No such file"] ∧
    ¬ List.IsInfix "/a/b".data "Failed to list b: No such file".data :=
  ⟨rfl, by decide⟩

/-- C6 amended: a failed `list` answers an `error` referencing the
offending path via its POSIX basename (`Failed to list ${basename}:
${message}`), the failure leaves the whole gateway state (registry entry
and SFTP subsystem handle) exactly unchanged — as does every other
operation request — and a subsequent valid `list` on the same session
succeeds. -/
theorem c6_amended (st : WsSftp.GatewayState) (cid p e : String)
    (fs : RemoteFs)
    (hready : WsSftp.sftpUnready st cid = false)
    (hfail : fs.readdirRes p = .error e) :
    WsSftp.handleMessage st cid (some (.list p)) fs =
      ⟨st, [.error ("Failed to list " ++ posixBasename p ++ ": " ++ e)], [],
       [.readdir p]⟩ ∧
    (∀ (m : ClientMsg) (fs2 : RemoteFs), WsSftp.isSftpOp m = true →
      (WsSftp.handleMessage st cid (some m) fs2).state = st) ∧
    (∀ (q : String) (l : List RemoteEntry) (fs3 : RemoteFs),
      fs3.readdirRes q = .ok l →
      (WsSftp.handleMessage st cid (some (.list q)) fs3).outputs =
        [.listResp q (WsSftp.listItems q l)]) := by
  obtain ⟨hh, hsome⟩ := isNone_false_exists hready
  refine ⟨?_, fun m fs2 hop => handleMessage_op_state st cid m fs2 hop, ?_⟩
  · simp only [WsSftp.handleMessage]
    rw [hsome, hfail]
    rfl
  · intro q l fs3 hq
    simp only [WsSftp.handleMessage]
    rw [hsome, hq]

/-- C6 witness: the amended theorem applied to the failing list on `/a/b`
followed by a successful list on `/home/u`, both on `stReady`. -/
theorem c6_amended_witness :
    WsSftp.handleMessage stReady "c1" (some (.list "/a/b")) fsFailList =
      ⟨stReady,
       [.error ("Failed to list " ++ posixBasename "/a/b" ++ ": " ++ "No such file")],
       [], [.readdir "/a/b"]⟩ ∧
    (WsSftp.handleMessage stReady "c1" (some (.list "/home/u")) fsOneFile).outputs =
      [.listResp "/home/u" (WsSftp.listItems "/home/u" [entryX])] := by
  have h := c6_amended stReady "c1" "/a/b" "No such file" fsFailList (by decide) rfl
  exact ⟨h.1, h.2.2 "/home/u" [entryX] fsOneFile rfl⟩

/-! ### Claim C10: upload decode encoding -/

/-- C10: an `upload` without an encoding tag makes the ws-sftp bridge
decode `fileData` with `base64` (the destructuring default); a present
tag is used as given; and the auto-sync variant always decodes with
`base64` regardless of any tag in the payload. -/
theorem c10_upload_encoding (st : WsSftp.GatewayState)
    (ast : AutoSync.GatewayState)
    (cid remoteDir fileName fileData enc : String)
    (fs : RemoteFs) (lfs : AutoSync.LocalFs) (now : Nat)
    (hready : WsSftp.sftpUnready st cid = false)
    (haready : AutoSync.sftpUnready ast cid = false) :
    (WsSftp.handleMessage st cid
        (some (.upload remoteDir fileName fileData none)) fs).sftpRequests =
      [.writeStream (posixJoin remoteDir fileName) (some ⟨fileData, "base64"⟩)] ∧
    (WsSftp.handleMessage st cid
        (some (.upload remoteDir fileName fileData (some enc))) fs).sftpRequests =
      [.writeStream (posixJoin remoteDir fileName) (some ⟨fileData, enc⟩)] ∧
    (AutoSync.handleMessage ast cid
        (some (.upload remoteDir fileName fileData (some enc))) fs lfs now).fsActions.head? =
      some (.writeFile (WsSftp.hostJoin AutoSync.SFTP_TEMP_DIR
        ("upload-" ++ toString now ++ "-" ++ fileName)) ⟨fileData, "base64"⟩) := by
  obtain ⟨hh, hsome⟩ := isNone_false_exists hready
  obtain ⟨ah, hasome⟩ := isNone_false_exists haready
  refine ⟨?_, ?_, ?_⟩
  · simp only [WsSftp.handleMessage]
    rw [hsome]
    cases hw : fs.writeRes (posixJoin remoteDir fileName) <;> rfl
  · simp only [WsSftp.handleMessage]
    rw [hsome]
    cases hw : fs.writeRes (posixJoin remoteDir fileName) <;> rfl
  · simp only [AutoSync.handleMessage]
    rw [hasome]
    cases hl : lfs.writeFileRes (WsSftp.hostJoin AutoSync.SFTP_TEMP_DIR
        ("upload-" ++ toString now ++ "-" ++ fileName)) with
    | some e => rfl
    | none =>
        cases hp : fs.fastPutRes (WsSftp.hostJoin AutoSync.SFTP_TEMP_DIR
            ("upload-" ++ toString now ++ "-" ++ fileName))
            (posixJoin remoteDir fileName) <;> rfl

/-- C10 witness: the encoding selections evaluated on the ready states
`stReady` and `stTracked`. -/
theorem c10_upload_encoding_witness :
    (WsSftp.handleMessage stReady "c1"
        (some (.upload "/home/u" "x.txt" "aGVsbG8=" none)) fsStub).sftpRequests =
      [.writeStream (posixJoin "/home/u" "x.txt") (some ⟨"aGVsbG8=", "base64"⟩)] ∧
    (AutoSync.handleMessage stTracked "c1"
        (some (.upload "/home/u" "x.txt" "aGVsbG8=" (some "utf8"))) fsStub
        AutoSync.localFsStub 7).fsActions.head? =
      some (.writeFile (WsSftp.hostJoin AutoSync.SFTP_TEMP_DIR
        ("upload-" ++ toString 7 ++ "-" ++ "x.txt")) ⟨"aGVsbG8=", "base64"⟩) := by
  have h := c10_upload_encoding stReady stTracked "c1" "/home/u" "x.txt" "aGVsbG8="
    "utf8" fsStub AutoSync.localFsStub 7 (by decide) (by decide)
  exact ⟨h.1, h.2.2⟩
